/-
Verification of the security-telemetry pipeline in
`Homework14_Final/final_task.py` against its design specification.

The Python functions are shallowly embedded as Lean functions:
  * pandas DataFrames are modelled as lists of row records;
  * machine floats (CVSS scores) are modelled as rationals — no claim in
    scope depends on floating-point rounding, only on field selection and
    order comparisons against decimal thresholds;
  * fallible Python code (raised exceptions) is modelled with `Except`.
-/
import Mathlib

set_option maxHeartbeats 1000000

/-! ### Data model: vulnerability records (`fetch_vulners_data`) -/

/-- A normalized vulnerability record, the dict shape built by
`fetch_vulners_data` and also the shape of the local fallback JSON.
`cvss` is `none` when the value is missing or non-numeric: `analyze`
coerces such values to `0.0` via `pd.to_numeric(errors="coerce").fillna(0.0)`,
which we model with `Option.getD 0` at the use site. -/
structure Vuln where
  id : String
  title : String
  cvss : Option ℚ
  published : Option String
  references : List String
deriving Repr, DecidableEq

/-- The `"cvss"` sub-object of a remote Vulners document
(`doc.get("cvss", {}) or {}` maps an absent, null or empty object to `{}`,
which we model by `Option CvssInfo` with `none` for all of those). -/
structure CvssInfo where
  score : Option ℚ
deriving Repr, DecidableEq

/-- The `"cvssV3"` sub-object of a remote document's `"cvss3"` field. -/
structure CvssV3Info where
  baseScore : Option ℚ
deriving Repr, DecidableEq

/-- The `"cvss3"` sub-object of a remote Vulners document. -/
structure Cvss3Info where
  cvssV3 : Option CvssV3Info
deriving Repr, DecidableEq

/-- A raw document from the remote Vulners payload
(`payload["data"]["search"]`), restricted to the fields the code reads. -/
structure RemoteDoc where
  id : Option String
  title : Option String
  cvss : Option CvssInfo
  cvss3 : Option Cvss3Info
  published : Option String
  lastseen : Option String
  href : Option String
deriving Repr, DecidableEq

/-- The per-document normalization loop body of `fetch_vulners_data`:
`cvss = doc.get("cvss", {}) or {}`, `score = cvss.get("score")`, falling
back to `doc.get("cvss3", {}).get("cvssV3", {}).get("baseScore")`, then
`float(score) if score is not None else 0.0`, and the remaining field
defaults. -/
def parseDoc (doc : RemoteDoc) : Vuln :=
  let cvss := doc.cvss.getD ⟨none⟩
  let score : Option ℚ :=
    match cvss.score with
    | some s => some s
    | none => ((doc.cvss3.getD ⟨none⟩).cvssV3.getD ⟨none⟩).baseScore
  { id := doc.id.getD "unknown"
    title := doc.title.getD ""
    cvss := some (score.getD 0)
    published :=
      match doc.published with
      | some p => some p
      | none => doc.lastseen
    references :=
      match doc.href with
      | some h => [h]
      | none => [] }

/-- `fetch_vulners_data`. The parameter `api_key` models the already
stripped `VULNERS_API_KEY` environment value (`os.getenv(...).strip()`),
`remote` models the outcome of the guarded remote interaction
(`requests.get`, `raise_for_status`, `response.json()` and the
`data.search` extraction): `Except.error` stands for any exception raised
there (network error or malformed payload), which the `except Exception`
clause catches.  The local fallback dataset is passed in as `localData`. -/
def fetch_vulners_data (api_key : String) (remote : Except Unit (List RemoteDoc))
    (localData : List Vuln) : List Vuln × String :=
  if api_key ≠ "" then
    match remote with
    | Except.ok docs =>
      let vulns := docs.map parseDoc
      if vulns ≠ [] then (vulns, "vulners_api")
      else (localData, "local_vulners_sample")
    | Except.error _ => (localData, "local_vulners_sample")
  else (localData, "local_vulners_sample")

/-- The CVSS resolution order as the specification words it: the primary
score field, else the nested v3 base-score field, else `0.0`. Stated
separately from `parseDoc` so that the claim compares the code's
resolution against the spec's. -/
def specCvssScore (doc : RemoteDoc) : ℚ :=
  match doc.cvss.bind CvssInfo.score with
  | some s => s
  | none =>
    match (doc.cvss3.bind Cvss3Info.cvssV3).bind CvssV3Info.baseScore with
    | some s => s
    | none => 0

/-! ### Data model: Suricata events (`load_suricata_events`) -/

/-- The `"alert"` sub-object of a Suricata event
(`evt.get("alert") or {}` maps an absent or null object to `{}`,
modelled by `Option AlertInfo` with `none`). -/
structure AlertInfo where
  severity : Option Int
  signature : Option String
deriving Repr, DecidableEq

/-- The `"dns"` sub-object of a Suricata event. -/
structure DnsInfo where
  rrname : Option String
deriving Repr, DecidableEq

/-- A successfully `json.loads`-parsed event line, restricted to the
fields the code reads. -/
structure RawEvent where
  timestamp : Option String
  event_type : Option String
  src_ip : Option String
  dest_ip : Option String
  alert : Option AlertInfo
  dns : Option DnsInfo
deriving Repr, DecidableEq

/-- One row of the DataFrame built by `load_suricata_events` (the dict
appended to `rows`).  The `pd.to_datetime` coercion of the timestamp
column is not modelled (no claim depends on timestamps), the raw string
is kept instead. -/
structure SecurityEvent where
  timestamp : Option String
  event_type : Option String
  src_ip : Option String
  dest_ip : Option String
  severity : Option Int
  signature : Option String
  dns_rrname : Option String
deriving Repr, DecidableEq

/-- A line of the event file after `line.strip()`: blank, not valid JSON
(`json.loads` raises `JSONDecodeError`), or a parsed event object. -/
inductive SuricataLine where
  | blank : SuricataLine
  | malformed : SuricataLine
  | event : RawEvent → SuricataLine
deriving Repr, DecidableEq

/-- The row-extraction expression of `load_suricata_events` for one
parsed event. -/
def rowOfEvent (e : RawEvent) : SecurityEvent :=
  { timestamp := e.timestamp
    event_type := e.event_type
    src_ip := e.src_ip
    dest_ip := e.dest_ip
    severity := (e.alert.getD ⟨none, none⟩).severity
    signature := (e.alert.getD ⟨none, none⟩).signature
    dns_rrname := (e.dns.getD ⟨none⟩).rrname }

/-- `load_suricata_events`, as a function of the (stripped) lines of the
event file.  Blank lines are skipped; the `json.loads` call has no
surrounding `try`, so a malformed line raises `JSONDecodeError` out of
the whole function, aborting ingestion — modelled by `Except.error`. -/
def load_suricata_events : List SuricataLine → Except String (List SecurityEvent)
  | [] => Except.ok []
  | SuricataLine.blank :: ls => load_suricata_events ls
  | SuricataLine.malformed :: _ => Except.error "JSONDecodeError"
  | SuricataLine.event e :: ls => (load_suricata_events ls).map (rowOfEvent e :: ·)

/-! ### String comparison

pandas sorts the `groupby("src_ip")` keys with numpy's lexicographic
comparison of Python strings (by code point).  Mathlib's `String` order
instances go through well-founded recursion that the kernel cannot
evaluate, so an equivalent structural comparison on the underlying
character lists is defined here. -/

/-- Lexicographic (code point) comparison, non-strict. -/
def charListLe : List Char → List Char → Bool
  | [], _ => true
  | _ :: _, [] => false
  | c :: cs, d :: ds =>
    if c.toNat = d.toNat then charListLe cs ds else decide (c.toNat < d.toNat)

/-- Lexicographic (code point) comparison of strings, non-strict. -/
def strLe (a b : String) : Bool := charListLe a.data b.data

/-- The non-strict lexicographic order on strings as a relation, used to
sort the grouped address keys. -/
def keyLe (a b : String) : Prop := strLe a b = true

instance : DecidableRel keyLe := fun a b => instDecidableEqBool (strLe a b) true

/-! ### The correlation and scoring engine (`analyze`) -/

/-- `CVSS_THRESHOLD = 8.0`. -/
def CVSS_THRESHOLD : ℚ := 8

/-- `DNS_SPIKE_THRESHOLD = 6`. -/
def DNS_SPIKE_THRESHOLD : Nat := 6

/-- One row of the `suspicious` table of `analyze`. -/
structure AddressStats where
  src_ip : String
  alert_count : Nat
  high_severity_alert_count : Nat
  dns_query_count : Nat
  risk_score : Nat
deriving Repr, DecidableEq

/-- `suricata_df[suricata_df["event_type"] == "alert"]` row predicate. -/
def isAlert (e : SecurityEvent) : Bool := e.event_type == some "alert"

/-- `suricata_df[suricata_df["event_type"] == "dns"]` row predicate. -/
def isDns (e : SecurityEvent) : Bool := e.event_type == some "dns"

/-- `alerts_df["severity"].fillna(99) <= 2` row predicate: a missing
severity is treated as `99` and hence excluded. -/
def isHighSev (e : SecurityEvent) : Bool := decide ((e.severity.getD 99 : Int) ≤ 2)

/-- The alert subset of the events. -/
def alertsOf (events : List SecurityEvent) : List SecurityEvent := events.filter isAlert

/-- The dns subset of the events. -/
def dnsOf (events : List SecurityEvent) : List SecurityEvent := events.filter isDns

/-- The high-severity alert subset of the events. -/
def highAlertsOf (events : List SecurityEvent) : List SecurityEvent :=
  (alertsOf events).filter isHighSev

/-- The non-null source addresses of a list of events, in order.
`groupby("src_ip")` drops rows whose key is missing (`dropna=True`). -/
def srcIps (l : List SecurityEvent) : List String := l.filterMap SecurityEvent.src_ip

/-- The size of one `groupby("src_ip")` group: the number of rows of `l`
whose source address equals `a`.  A row with a missing source address
matches no group. -/
def countSrc (l : List SecurityEvent) (a : String) : Nat :=
  (l.filter (fun e => e.src_ip == some a)).length

/-- The row index of the `suspicious` table: `pd.concat(..., axis=1)`
outer-joins the three group indexes, each of which `groupby` returns
sorted, so the result is the sorted union of the distinct non-null
source addresses of the alert, high-severity-alert and dns subsets. -/
def tableKeys (events : List SecurityEvent) : List String :=
  List.insertionSort keyLe
    ((srcIps (alertsOf events) ++ srcIps (highAlertsOf events) ++ srcIps (dnsOf events)).dedup)

/-- The `suspicious` row for one source address: the three group sizes
(missing groups filled with `0` by `.fillna(0)`) and the risk score
`high_severity_alert_count * 5 + alert_count * 2 +
(dns_query_count >= DNS_SPIKE_THRESHOLD) * 3`. -/
def mkStats (events : List SecurityEvent) (a : String) : AddressStats :=
  { src_ip := a
    alert_count := countSrc (alertsOf events) a
    high_severity_alert_count := countSrc (highAlertsOf events) a
    dns_query_count := countSrc (dnsOf events) a
    risk_score := countSrc (highAlertsOf events) a * 5 + countSrc (alertsOf events) a * 2 +
      (if DNS_SPIKE_THRESHOLD ≤ countSrc (dnsOf events) a then 3 else 0) }

/-- The descending-risk relation used by
`sort_values("risk_score", ascending=False)`. -/
def riskGe (a b : AddressStats) : Prop := b.risk_score ≤ a.risk_score

instance : DecidableRel riskGe := fun a b => Nat.decLe b.risk_score a.risk_score

/-- The sorted `suspicious` table.
`sort_values("risk_score", ascending=False)` uses numpy's default
introsort, which guarantees the descending key order but no particular
arrangement of equal-risk rows (it is stable only for the small arrays
on which it degenerates to insertion sort).  The model realises the sort
as a stable insertion sort — one possible outcome — so only properties
that hold under every permutation of equal-risk rows (the non-increasing
key order, the set of rows, any filter of them) are asserted for all
inputs. -/
def suspiciousTable (events : List SecurityEvent) : List AddressStats :=
  List.insertionSort riskGe ((tableKeys events).map (mkStats events))

/-- The result dict of `analyze`. -/
structure AnalysisResult where
  high_cvss : List Vuln
  alerts : List SecurityEvent
  suspicious : List AddressStats
  threats : List AddressStats
  total_vulns : Nat
  high_cvss_count : Nat
  suricata_events : Nat
  alert_events : Nat
  dns_events : Nat
  threat_ips : Nat
deriving Repr, DecidableEq

/-- `analyze`.  Inside the program `suricata_df` is the DataFrame built
by `load_suricata_events`: when the event list is empty that DataFrame
(`pd.DataFrame([])`) has no columns at all, so the very first column
selection `suricata_df["event_type"]` raises `KeyError` — modelled by
the `Except.error` branch.  Otherwise every column exists and the
aggregation proceeds; the threat cutoff is the hardcoded literal `5`. -/
def analyze (vulns : List Vuln) (suricata : List SecurityEvent) :
    Except String AnalysisResult :=
  if suricata.isEmpty then Except.error "event_type"
  else
    let high_cvss := vulns.filter (fun v => decide (CVSS_THRESHOLD ≤ v.cvss.getD 0))
    let alerts := alertsOf suricata
    let dns := dnsOf suricata
    let susp := suspiciousTable suricata
    let threats := susp.filter (fun s => decide (5 ≤ s.risk_score))
    Except.ok
      { high_cvss := high_cvss
        alerts := alerts
        suspicious := susp
        threats := threats
        total_vulns := vulns.length
        high_cvss_count := high_cvss.length
        suricata_events := suricata.length
        alert_events := alerts.length
        dns_events := dns.length
        threat_ips := threats.length }

/-! ### The response simulator (`simulate_response`) -/

/-- One simulated mitigation action. -/
structure ResponseAction where
  src_ip : String
  risk_score : Nat
  simulated_block : Bool
  notification : String
deriving Repr, DecidableEq

/-- The notification text built for one threat row. -/
def notifyMsg (ip : String) (score : Nat) : String :=
  "[ALERT] Threat detected from " ++ ip ++ ". Risk score=" ++ toString score ++ "."

/-- `simulate_response`: one action per threat row, in table order; an
empty threat table yields an empty action list. -/
def simulate_response (threats : List AddressStats) : List ResponseAction :=
  threats.map fun t =>
    { src_ip := t.src_ip
      risk_score := t.risk_score
      simulated_block := true
      notification := notifyMsg t.src_ip t.risk_score }

/-! ### Auxiliary relations and sample data used by the theorems -/

/-- An event row carries a non-null source address. -/
def hasSrc (e : SecurityEvent) : Bool := e.src_ip.isSome

/-- The distinct values of a list in first-seen order: the order the
specification asserts for risk-score ties. -/
def firstSeen (l : List String) : List String :=
  l.foldl (fun acc a => if a ∈ acc then acc else acc ++ [a]) []

/-- Sample alert event (severity 1) from `10.0.0.5`. -/
def evAlertA : SecurityEvent :=
  { timestamp := none, event_type := some "alert", src_ip := some "10.0.0.5",
    dest_ip := none, severity := some 1, signature := some "sigA", dns_rrname := none }

/-- Sample dns event from `10.0.0.5`. -/
def evDnsA : SecurityEvent :=
  { timestamp := none, event_type := some "dns", src_ip := some "10.0.0.5",
    dest_ip := none, severity := none, signature := none, dns_rrname := some "example.com" }

/-- Sample event set: one severity-1 alert and one dns query, both from
`10.0.0.5`. -/
def evsA : List SecurityEvent := [evAlertA, evDnsA]

/-- The statistics row `analyze` produces for `evsA`. -/
def rowA : AddressStats :=
  { src_ip := "10.0.0.5", alert_count := 1, high_severity_alert_count := 1,
    dns_query_count := 1, risk_score := 7 }

/-- The full `analyze` result for `evsA` with no vulnerabilities. -/
def resA : AnalysisResult :=
  { high_cvss := [], alerts := [evAlertA], suspicious := [rowA], threats := [rowA],
    total_vulns := 0, high_cvss_count := 0, suricata_events := 2, alert_events := 1,
    dns_events := 1, threat_ips := 1 }

/-- Sample low-severity alert from `10.0.0.2`; first in input order. -/
def evTieB : SecurityEvent :=
  { timestamp := none, event_type := some "alert", src_ip := some "10.0.0.2",
    dest_ip := none, severity := some 5, signature := none, dns_rrname := none }

/-- Sample low-severity alert from `10.0.0.1`; second in input order. -/
def evTieA : SecurityEvent :=
  { timestamp := none, event_type := some "alert", src_ip := some "10.0.0.1",
    dest_ip := none, severity := some 5, signature := none, dns_rrname := none }

/-- `10.0.0.1` statistics row for the tie example. -/
def rowTieA : AddressStats :=
  { src_ip := "10.0.0.1", alert_count := 1, high_severity_alert_count := 0,
    dns_query_count := 0, risk_score := 2 }

/-- `10.0.0.2` statistics row for the tie example. -/
def rowTieB : AddressStats :=
  { src_ip := "10.0.0.2", alert_count := 1, high_severity_alert_count := 0,
    dns_query_count := 0, risk_score := 2 }

/-- The full `analyze` result for the tie example `[evTieB, evTieA]`. -/
def resTie : AnalysisResult :=
  { high_cvss := [], alerts := [evTieB, evTieA], suspicious := [rowTieA, rowTieB],
    threats := [], total_vulns := 0, high_cvss_count := 0, suricata_events := 2,
    alert_events := 2, dns_events := 0, threat_ips := 0 }

/-- Sample parsed alert line used by the ingestion theorems. -/
def rawEvA : RawEvent :=
  { timestamp := some "2024-01-01T00:00:00", event_type := some "alert",
    src_ip := some "10.0.0.7", dest_ip := some "192.0.2.1",
    alert := some { severity := some 2, signature := some "sigRaw" }, dns := none }

/-- Sample parsed dns line used by the ingestion theorems. -/
def rawEvB : RawEvent :=
  { timestamp := some "2024-01-01T00:00:01", event_type := some "dns",
    src_ip := some "10.0.0.8", dest_ip := none,
    alert := none, dns := some { rrname := some "x.example" } }

/-- Sample remote document whose primary score is absent and whose
nested v3 base score is `7`. -/
def docV3 : RemoteDoc :=
  { id := some "CVE-2024-0001", title := some "sample", cvss := none,
    cvss3 := some { cvssV3 := some { baseScore := some 7 } },
    published := some "2024-01-01", lastseen := none, href := none }

/-- The record `fetch_vulners_data` builds from `docV3`. -/
def vulnV3 : Vuln :=
  { id := "CVE-2024-0001", title := "sample", cvss := some 7,
    published := some "2024-01-01", references := [] }

/-- Sample local fallback record. -/
def vulnLocal : Vuln :=
  { id := "CVE-2020-9999", title := "local sample", cvss := some 9,
    published := some "2020-05-05", references := ["https://example.com"] }

/-! ### Helper lemmas -/

theorem charListLe_total : ∀ xs ys : List Char,
    charListLe xs ys = true ∨ charListLe ys xs = true := by
  intro xs
  induction xs with
  | nil => intro ys; left; rfl
  | cons c cs ih =>
    intro ys
    cases ys with
    | nil => right; rfl
    | cons d ds =>
      simp only [charListLe]
      by_cases h : c.toNat = d.toNat
      · rw [if_pos h, if_pos h.symm]
        exact ih ds
      · rw [if_neg h, if_neg (Ne.symm h)]
        rcases Nat.lt_or_ge c.toNat d.toNat with hlt | hge
        · left; exact decide_eq_true hlt
        · right; exact decide_eq_true (lt_of_le_of_ne hge (Ne.symm h))

theorem charListLe_trans : ∀ xs ys zs : List Char,
    charListLe xs ys = true → charListLe ys zs = true → charListLe xs zs = true := by
  intro xs
  induction xs with
  | nil => intro ys zs _ _; rfl
  | cons c cs ih =>
    intro ys zs h1 h2
    cases ys with
    | nil => simp [charListLe] at h1
    | cons d ds =>
      cases zs with
      | nil => simp [charListLe] at h2
      | cons e es =>
        simp only [charListLe] at h1 h2 ⊢
        by_cases hcd : c.toNat = d.toNat
        · rw [if_pos hcd] at h1
          by_cases hde : d.toNat = e.toNat
          · rw [if_pos hde] at h2
            rw [if_pos (hcd.trans hde)]
            exact ih ds es h1 h2
          · rw [if_neg hde] at h2
            have h2' : d.toNat < e.toNat := of_decide_eq_true h2
            have hne : ¬ c.toNat = e.toNat := by omega
            rw [if_neg hne]
            exact decide_eq_true (by omega)
        · rw [if_neg hcd] at h1
          have h1' : c.toNat < d.toNat := of_decide_eq_true h1
          by_cases hde : d.toNat = e.toNat
          · rw [if_pos hde] at h2
            have hne : ¬ c.toNat = e.toNat := by omega
            rw [if_neg hne]
            exact decide_eq_true (by omega)
          · rw [if_neg hde] at h2
            have h2' : d.toNat < e.toNat := of_decide_eq_true h2
            have hne : ¬ c.toNat = e.toNat := by omega
            rw [if_neg hne]
            exact decide_eq_true (by omega)

instance : IsTotal String keyLe := ⟨fun a b => charListLe_total a.data b.data⟩

instance : IsTrans String keyLe := ⟨fun a b c => charListLe_trans a.data b.data c.data⟩

instance : IsTotal AddressStats riskGe := ⟨fun a b => Nat.le_total b.risk_score a.risk_score⟩

instance : IsTrans AddressStats riskGe := ⟨fun _ _ _ hab hbc => Nat.le_trans hbc hab⟩

/-- Unpacking a successful `analyze` run. -/
theorem analyze_ok_elim {vulns : List Vuln} {events : List SecurityEvent}
    {res : AnalysisResult} (h : analyze vulns events = Except.ok res) :
    res.suspicious = suspiciousTable events ∧
      res.threats = (suspiciousTable events).filter (fun s => decide (5 ≤ s.risk_score)) := by
  unfold analyze at h
  split at h
  · exact absurd h (fun hh => Except.noConfusion hh)
  · simp only [Except.ok.injEq] at h
    subst h
    exact ⟨rfl, rfl⟩

/-- Every row of the `suspicious` table is built by `mkStats` from one of
the grouped keys. -/
theorem mem_suspiciousTable {events : List SecurityEvent} {s : AddressStats}
    (hs : s ∈ suspiciousTable events) :
    ∃ a, a ∈ tableKeys events ∧ s = mkStats events a := by
  have hmem : s ∈ (tableKeys events).map (mkStats events) :=
    (List.mem_insertionSort riskGe).mp hs
  rcases List.mem_map.mp hmem with ⟨a, ha, hae⟩
  exact ⟨a, ha, hae.symm⟩

theorem filter_filter_length_le (p q : SecurityEvent → Bool) (l : List SecurityEvent) :
    ((l.filter p).filter q).length ≤ (l.filter q).length :=
  ((List.filter_sublist l : List.Sublist (l.filter p) l).filter q).length_le

theorem filter3_eq (p q r' : SecurityEvent → Bool) (l : List SecurityEvent) :
    ((l.filter p).filter q).filter r' = l.filter (fun e => p e && r' e && q e) := by
  rw [List.filter_filter, List.filter_filter]
  exact List.filter_congr (fun e _ => by cases p e <;> cases q e <;> cases r' e <;> rfl)

/-- The sorted `suspicious` table is sorted by non-increasing risk. -/
theorem suspiciousTable_sorted (events : List SecurityEvent) :
    (suspiciousTable events).Sorted riskGe :=
  List.sorted_insertionSort riskGe _

/-- Dropping the rows with a null source address changes no extracted
source-address list: `groupby` ignores those rows anyway. -/
theorem filterMap_src_filter_hasSrc (p : SecurityEvent → Bool) (l : List SecurityEvent) :
    ((l.filter hasSrc).filter p).filterMap SecurityEvent.src_ip
      = (l.filter p).filterMap SecurityEvent.src_ip := by
  induction l with
  | nil => rfl
  | cons e l ih =>
    cases hsrc : e.src_ip with
    | none =>
      have hh : ¬ hasSrc e = true := by simp [hasSrc, hsrc]
      rw [List.filter_cons_of_neg hh]
      by_cases hp : p e
      · rw [List.filter_cons_of_pos hp, List.filterMap_cons, hsrc]
        exact ih
      · rw [List.filter_cons_of_neg hp]
        exact ih
    | some v =>
      have hh : hasSrc e = true := by simp [hasSrc, hsrc]
      rw [List.filter_cons_of_pos hh]
      by_cases hp : p e
      · rw [List.filter_cons_of_pos hp, List.filter_cons_of_pos hp,
          List.filterMap_cons, List.filterMap_cons, ih]
      · rw [List.filter_cons_of_neg hp, List.filter_cons_of_neg hp]
        exact ih

/-- Dropping the rows with a null source address changes no group size:
a null-address row matches no group. -/
theorem countSrc_filter_hasSrc (p : SecurityEvent → Bool) (a : String) (l : List SecurityEvent) :
    countSrc ((l.filter hasSrc).filter p) a = countSrc (l.filter p) a := by
  unfold countSrc
  rw [List.filter_filter, List.filter_filter, List.filter_filter]
  congr 1
  apply List.filter_congr
  intro e _
  cases hm : (e.src_ip == some a) with
  | false => simp
  | true =>
    have hsome : e.src_ip = some a := eq_of_beq hm
    simp [hasSrc, hsome]

/-- Null-source rows do not contribute to the alert group keys. -/
theorem srcIps_alerts_filter_hasSrc (events : List SecurityEvent) :
    srcIps (alertsOf (events.filter hasSrc)) = srcIps (alertsOf events) :=
  filterMap_src_filter_hasSrc isAlert events

/-- Null-source rows do not contribute to the high-severity group keys. -/
theorem srcIps_high_filter_hasSrc (events : List SecurityEvent) :
    srcIps (highAlertsOf (events.filter hasSrc)) = srcIps (highAlertsOf events) := by
  unfold srcIps highAlertsOf alertsOf
  rw [List.filter_filter isAlert (events.filter hasSrc), List.filter_filter isAlert events]
  exact filterMap_src_filter_hasSrc _ events

/-- Null-source rows do not contribute to the dns group keys. -/
theorem srcIps_dns_filter_hasSrc (events : List SecurityEvent) :
    srcIps (dnsOf (events.filter hasSrc)) = srcIps (dnsOf events) :=
  filterMap_src_filter_hasSrc isDns events

/-- Null-source rows do not change the grouped table index. -/
theorem tableKeys_filter_hasSrc (events : List SecurityEvent) :
    tableKeys (events.filter hasSrc) = tableKeys events := by
  unfold tableKeys
  rw [srcIps_alerts_filter_hasSrc, srcIps_high_filter_hasSrc, srcIps_dns_filter_hasSrc]

/-- Null-source rows do not change any statistics row. -/
theorem mkStats_filter_hasSrc (events : List SecurityEvent) (a : String) :
    mkStats (events.filter hasSrc) a = mkStats events a := by
  simp only [mkStats, highAlertsOf, alertsOf, dnsOf]
  rw [List.filter_filter isAlert (events.filter hasSrc), List.filter_filter isAlert events,
    countSrc_filter_hasSrc isAlert a events,
    countSrc_filter_hasSrc (fun e => isHighSev e && isAlert e) a events]
  simp only [countSrc_filter_hasSrc isDns a events]

/-- Null-source rows do not change the sorted `suspicious` table. -/
theorem suspiciousTable_filter_hasSrc (events : List SecurityEvent) :
    suspiciousTable (events.filter hasSrc) = suspiciousTable events := by
  unfold suspiciousTable
  rw [tableKeys_filter_hasSrc,
    funext (mkStats_filter_hasSrc events) ]

/-- Every grouped key is the source address of some event. -/
theorem tableKeys_mem_src (events : List SecurityEvent) (a : String)
    (ha : a ∈ tableKeys events) : some a ∈ events.map SecurityEvent.src_ip := by
  have hd : a ∈ (srcIps (alertsOf events) ++ srcIps (highAlertsOf events)
      ++ srcIps (dnsOf events)).dedup := (List.mem_insertionSort keyLe).mp ha
  have hm := List.mem_dedup.mp hd
  have habc : a ∈ srcIps (alertsOf events) ∨ a ∈ srcIps (highAlertsOf events)
      ∨ a ∈ srcIps (dnsOf events) := by
    rcases List.mem_append.mp hm with h | h
    · rcases List.mem_append.mp h with h1 | h1
      · exact Or.inl h1
      · exact Or.inr (Or.inl h1)
    · exact Or.inr (Or.inr h)
  have hsub : ∀ m : List SecurityEvent, (∀ e ∈ m, e ∈ events) →
      a ∈ srcIps m → some a ∈ events.map SecurityEvent.src_ip := by
    intro m hmsub hma
    rcases List.mem_filterMap.mp hma with ⟨e, he, hesrc⟩
    exact List.mem_map.mpr ⟨e, hmsub e he, hesrc⟩
  rcases habc with h | h | h
  · exact hsub _ (fun e he => List.mem_of_mem_filter he) h
  · exact hsub _ (fun e he => List.mem_of_mem_filter (List.mem_of_mem_filter he)) h
  · exact hsub _ (fun e he => List.mem_of_mem_filter he) h

/-- The code's per-document score equals the spec's resolution order. -/
theorem parseDoc_cvss (doc : RemoteDoc) :
    (parseDoc doc).cvss = some (specCvssScore doc) := by
  have hchain : ((doc.cvss3.getD ⟨none⟩).cvssV3.getD ⟨none⟩).baseScore
      = (doc.cvss3.bind Cvss3Info.cvssV3).bind CvssV3Info.baseScore := by
    cases doc.cvss3 with
    | none => rfl
    | some c3 =>
      cases hv : c3.cvssV3 with
      | none => simp [hv]
      | some v3 => simp [hv]
  have hscore : (doc.cvss.getD ⟨none⟩).score = doc.cvss.bind CvssInfo.score := by
    cases doc.cvss <;> rfl
  cases hb : doc.cvss.bind CvssInfo.score with
  | some s => simp [parseDoc, specCvssScore, hscore, hb]
  | none =>
    cases hc : (doc.cvss3.bind Cvss3Info.cvssV3).bind CvssV3Info.baseScore with
    | some s => simp [parseDoc, specCvssScore, hscore, hchain, hb, hc]
    | none => simp [parseDoc, specCvssScore, hscore, hchain, hb, hc]

/-- A run labelled `"vulners_api"` returned exactly the parsed remote
documents. -/
theorem fetch_api_path {k : String} {docs : List RemoteDoc} {localData vs : List Vuln}
    (h : fetch_vulners_data k (Except.ok docs) localData = (vs, "vulners_api")) :
    vs = docs.map parseDoc := by
  by_cases hk : k = ""
  · rw [show fetch_vulners_data k (Except.ok docs) localData
        = (localData, "local_vulners_sample") by simp [fetch_vulners_data, hk]] at h
    have : "local_vulners_sample" = "vulners_api" := congrArg Prod.snd h
    exact absurd this (by decide)
  · by_cases hd : docs.map parseDoc = []
    · rw [show fetch_vulners_data k (Except.ok docs) localData
          = (localData, "local_vulners_sample") by simp [fetch_vulners_data, hk, hd]] at h
      have : "local_vulners_sample" = "vulners_api" := congrArg Prod.snd h
      exact absurd this (by decide)
    · rw [show fetch_vulners_data k (Except.ok docs) localData
          = (docs.map parseDoc, "vulners_api") by simp [fetch_vulners_data, hk, hd]] at h
      exact (congrArg Prod.fst h).symm

/-! ### Claim theorems -/

/-- Claim C1: for every vulnerability list and event set, every row of
the per-address statistics produced by `analyze` satisfies
`risk_score = high_severity_alert_count * 5 + alert_count * 2 +
(3 if dns_query_count ≥ DNS_SPIKE_THRESHOLD else 0)`. -/
theorem risk_score_formula (vulns : List Vuln) (events : List SecurityEvent)
    (res : AnalysisResult) (h : analyze vulns events = Except.ok res)
    (s : AddressStats) (hs : s ∈ res.suspicious) :
    s.risk_score = s.high_severity_alert_count * 5 + s.alert_count * 2 +
      (if DNS_SPIKE_THRESHOLD ≤ s.dns_query_count then 3 else 0) := by
  rw [(analyze_ok_elim h).1] at hs
  rcases mem_suspiciousTable hs with ⟨a, _, rfl⟩
  rfl

/-- Witness for `risk_score_formula` at the sample input `evsA`. -/
theorem risk_score_formula_witness :
    rowA.risk_score = rowA.high_severity_alert_count * 5 + rowA.alert_count * 2 +
      (if DNS_SPIKE_THRESHOLD ≤ rowA.dns_query_count then 3 else 0) :=
  risk_score_formula [] evsA resA rfl rowA (by decide)

/-- Claim C8: for every address present in the per-address statistics
produced by `analyze`, the high-severity alert count never exceeds the
alert count. -/
theorem high_severity_le_alert_count (vulns : List Vuln) (events : List SecurityEvent)
    (res : AnalysisResult) (h : analyze vulns events = Except.ok res)
    (s : AddressStats) (hs : s ∈ res.suspicious) :
    s.high_severity_alert_count ≤ s.alert_count := by
  rw [(analyze_ok_elim h).1] at hs
  rcases mem_suspiciousTable hs with ⟨a, _, rfl⟩
  exact filter_filter_length_le isHighSev (fun e => e.src_ip == some a) (alertsOf events)

/-- Witness for `high_severity_le_alert_count` at the sample input. -/
theorem high_severity_le_alert_count_witness :
    rowA.high_severity_alert_count ≤ rowA.alert_count :=
  high_severity_le_alert_count [] evsA resA rfl rowA (by decide)

/-- Claim C5: the threat list returned by `analyze` contains exactly the
statistics rows whose risk score is at least the threat cutoff 5, in the
order of the sorted statistics table. -/
theorem threats_filter_by_threshold (vulns : List Vuln) (events : List SecurityEvent)
    (res : AnalysisResult) (h : analyze vulns events = Except.ok res) :
    res.threats = res.suspicious.filter (fun s => decide (5 ≤ s.risk_score)) := by
  rw [(analyze_ok_elim h).1, (analyze_ok_elim h).2]

/-- Witness for `threats_filter_by_threshold` at the sample input. -/
theorem threats_filter_by_threshold_witness :
    resA.threats = resA.suspicious.filter (fun s => decide (5 ≤ s.risk_score)) :=
  threats_filter_by_threshold [] evsA resA rfl

/-- Claim C7: for every alert group, the high-severity count is exactly
the number of alert events of that source address whose severity —
defaulting a missing severity to 99, which excludes it — is at most 2. -/
theorem high_severity_count_exact (vulns : List Vuln) (events : List SecurityEvent)
    (res : AnalysisResult) (h : analyze vulns events = Except.ok res)
    (s : AddressStats) (hs : s ∈ res.suspicious) :
    s.high_severity_alert_count
      = (events.filter (fun e => isAlert e && (e.src_ip == some s.src_ip)
          && isHighSev e)).length := by
  rw [(analyze_ok_elim h).1] at hs
  rcases mem_suspiciousTable hs with ⟨a, _, rfl⟩
  show (((events.filter isAlert).filter isHighSev).filter
      (fun e => e.src_ip == some a)).length
    = (events.filter (fun e => isAlert e && (e.src_ip == some a) && isHighSev e)).length
  rw [filter3_eq]

/-- Witness for `high_severity_count_exact` at the sample input. -/
theorem high_severity_count_exact_witness :
    rowA.high_severity_alert_count
      = (evsA.filter (fun e => isAlert e && (e.src_ip == some rowA.src_ip)
          && isHighSev e)).length :=
  high_severity_count_exact [] evsA resA rfl rowA (by decide)

/-- Claim C10: every row of the statistics produced by `analyze` takes
its address from an event with a non-null source address, and events
whose source address is null contribute to no row: dropping them leaves
the statistics table unchanged. -/
theorem null_src_excluded (vulns : List Vuln) (events : List SecurityEvent)
    (res : AnalysisResult) (h : analyze vulns events = Except.ok res)
    (s : AddressStats) (hs : s ∈ res.suspicious) :
    some s.src_ip ∈ events.map SecurityEvent.src_ip ∧
      res.suspicious = suspiciousTable (events.filter hasSrc) := by
  have h1 := (analyze_ok_elim h).1
  constructor
  · rw [h1] at hs
    rcases mem_suspiciousTable hs with ⟨a, ha, rfl⟩
    exact tableKeys_mem_src events a ha
  · rw [h1, suspiciousTable_filter_hasSrc]

/-- Witness for `null_src_excluded` at the sample input. -/
theorem null_src_excluded_witness :
    some rowA.src_ip ∈ evsA.map SecurityEvent.src_ip ∧
      resA.suspicious = suspiciousTable (evsA.filter hasSrc) :=
  null_src_excluded [] evsA resA rfl rowA (by decide)

/-- Claim C4, counterexample to the stated tie order: two equal-risk
alerts arriving as `10.0.0.2` then `10.0.0.1` come out of `analyze` as
`10.0.0.1, 10.0.0.2` — the grouping step sorts the addresses — while the
first-seen order of the addresses is `10.0.0.2, 10.0.0.1`, so
equal-risk rows do not keep the first-seen order the claim asserts. -/
theorem tie_order_not_first_seen :
    (analyze [] [evTieB, evTieA]).map (fun r => r.suspicious.map AddressStats.src_ip)
      = Except.ok ["10.0.0.1", "10.0.0.2"]
    ∧ (analyze [] [evTieB, evTieA]).map (fun r => r.suspicious.map AddressStats.risk_score)
      = Except.ok [2, 2]
    ∧ firstSeen (srcIps [evTieB, evTieA]) = ["10.0.0.2", "10.0.0.1"]
    ∧ (["10.0.0.1", "10.0.0.2"] : List String) ≠ ["10.0.0.2", "10.0.0.1"] :=
  ⟨rfl, rfl, rfl, by decide⟩

/-- Claim C4 as amended: the per-address statistics produced by
`analyze` are ordered by risk score in non-increasing order; the order
of rows with equal risk score is not the first-seen order of their
addresses (the grouping step has already reordered the addresses — see
the counterexample) and is not guaranteed beyond that, since the sort
kind the code uses is not stable in general. -/
theorem suspicious_sorted_desc (vulns : List Vuln)
    (events : List SecurityEvent) (res : AnalysisResult)
    (h : analyze vulns events = Except.ok res) :
    res.suspicious.Sorted riskGe := by
  rw [(analyze_ok_elim h).1]
  exact suspiciousTable_sorted events

/-- Witness for `suspicious_sorted_desc` at the two-address tie input. -/
theorem suspicious_sorted_desc_witness :
    resTie.suspicious.Sorted riskGe :=
  suspicious_sorted_desc [] [evTieB, evTieA] resTie rfl

/-- Claim C2: the specification promises that an empty event set is a
valid non-error state, but `analyze` applied to the DataFrame built from
an empty event file — `pd.DataFrame([])`, which has no columns — raises
`KeyError` on `suricata_df["event_type"]` instead of returning empty
tables.  The second conjunct checks the part of the claim the code does
satisfy: `simulate_response` of an empty threat table is an empty action
list. -/
theorem empty_events_raise_keyerror :
    analyze [] [] = Except.error "event_type" ∧ simulate_response [] = [] :=
  ⟨rfl, rfl⟩

/-- Claim C3: the specification promises a malformed event line is
dropped and ingestion continues, but `json.loads` in
`load_suricata_events` has no surrounding `try`, so the first malformed
line aborts the whole ingestion and later well-formed lines are lost;
with the malformed line replaced by a blank line both events load. -/
theorem malformed_line_aborts_ingestion :
    load_suricata_events [SuricataLine.event rawEvA, SuricataLine.malformed,
        SuricataLine.event rawEvB] = Except.error "JSONDecodeError"
    ∧ load_suricata_events [SuricataLine.event rawEvA, SuricataLine.blank,
        SuricataLine.event rawEvB]
      = Except.ok [rowOfEvent rawEvA, rowOfEvent rawEvB] :=
  ⟨rfl, rfl⟩

/-- Claim C6: with no credential configured, or with the remote fetch
failing (network error or malformed payload, modelled by `Except.error`)
or returning zero documents, `fetch_vulners_data` returns the local
fallback dataset labelled `"local_vulners_sample"`; being a total
function, no exception from the remote path escapes to the caller. -/
theorem fetch_falls_back_to_local (k : String) (remote : Except Unit (List RemoteDoc))
    (localData : List Vuln)
    (h : k = "" ∨ remote = Except.error () ∨ remote = Except.ok []) :
    fetch_vulners_data k remote localData = (localData, "local_vulners_sample") := by
  rcases h with rfl | rfl | rfl
  · simp [fetch_vulners_data]
  · by_cases hk : k = "" <;> simp [fetch_vulners_data, hk]
  · by_cases hk : k = "" <;> simp [fetch_vulners_data, hk]

/-- Witness for `fetch_falls_back_to_local` with no credential. -/
theorem fetch_falls_back_to_local_witness :
    fetch_vulners_data "" (Except.ok [docV3]) [vulnLocal]
      = ([vulnLocal], "local_vulners_sample") :=
  fetch_falls_back_to_local "" (Except.ok [docV3]) [vulnLocal] (Or.inl rfl)

/-- Claim C9: on the remote path, every returned record's CVSS score is
resolved per document as the primary score field, else the nested v3
base-score field, else 0. -/
theorem cvss_resolution_order (k : String) (docs : List RemoteDoc)
    (localData vs : List Vuln)
    (h : fetch_vulners_data k (Except.ok docs) localData = (vs, "vulners_api"))
    (i : Nat) (hi : i < docs.length) (hv : i < vs.length) :
    vs[i].cvss = some (specCvssScore docs[i]) := by
  have hvs := fetch_api_path h
  subst hvs
  simp [parseDoc_cvss]

/-- Witness for `cvss_resolution_order` at a document with only the
nested v3 base score. -/
theorem cvss_resolution_order_witness :
    vulnV3.cvss = some (specCvssScore docV3) :=
  cvss_resolution_order "key" [docV3] [] [vulnV3] rfl 0 (by decide) (by decide)
